import Mathlib

/-!
Verification of the venue-voter store-rating application.

The development shallowly embeds the storage layer defined in
supabase/migrations (tables profiles, stores, ratings with their CHECK,
UNIQUE and foreign-key constraints, the handle_new_user trigger, the
store_ratings view, and the row-level-security policies) together with
the client flows handleSubmitRating (UserDashboard.tsx) and fetchRatings
(StoreOwnerDashboard) — modelled both at the bare storage level and as
authenticated requests whose policy evaluation is made explicit — and
the client-side zod schemas (AdminDashboard).

UUID columns are modelled as natural-number identifiers; timestamp
columns are omitted because no statement below concerns them.  SQL
length(text) is modelled by String.length.  Fallible SQL statements are
modelled in Except.
-/

namespace VenueVoter

/-- SQL: CREATE TYPE public.user_role AS ENUM (admin, normal_user, store_owner). -/
inductive UserRole
  | admin
  | normal_user
  | store_owner
deriving DecidableEq, Repr

/-- Identifiers (UUID columns) are modelled as naturals. -/
abbrev UID := Nat

/-- Row of public.profiles (timestamps omitted).  The address column is
nullable, hence Option. -/
structure Profile where
  id : UID
  user_id : UID
  name : String
  email : String
  address : Option String
  role : UserRole
deriving DecidableEq, Repr

/-- Row of public.stores (timestamps omitted).  address is NOT NULL. -/
structure Store where
  id : UID
  owner_id : UID
  name : String
  email : String
  address : String
deriving DecidableEq, Repr

/-- Row of public.ratings (timestamps omitted). -/
structure Rating where
  id : UID
  user_id : UID
  store_id : UID
  rating : Int
deriving DecidableEq, Repr

/-- The three application tables. -/
structure DB where
  profiles : List Profile
  stores : List Store
  ratings : List Rating
deriving DecidableEq, Repr

/-- Errors raised by the storage layer: constraint violations, the enum
cast failure, the row-level-security recursion error (42P17, infinite
recursion detected in policy) and a WITH CHECK denial. -/
inductive DBError
  | checkViolation
  | uniqueViolation
  | fkViolation
  | invalidEnumCast
  | policyRecursion
  | rlsDenied
deriving DecidableEq, Repr

/-- CHECK constraints of public.profiles:
length(name) >= 20 AND length(name) <= 60, and length(address) <= 400.
A NULL address passes its CHECK. -/
def profileChecksOk (name : String) (address : Option String) : Bool :=
  decide (20 ≤ name.length) && decide (name.length ≤ 60) &&
    (match address with
     | none => true
     | some a => decide (a.length ≤ 400))

/-- CHECK constraints of public.stores:
length(name) >= 20 AND length(name) <= 60, and length(address) <= 400.
There is no lower bound on address in the schema. -/
def storeChecksOk (name : String) (address : String) : Bool :=
  decide (20 ≤ name.length) && decide (name.length ≤ 60) &&
    decide (address.length ≤ 400)

/-- CHECK constraint of public.ratings: rating >= 1 AND rating <= 5. -/
def ratingCheckOk (r : Int) : Bool :=
  decide (1 ≤ r) && decide (r ≤ 5)

/-- INSERT INTO public.profiles, enforcing the CHECK constraints, the
UNIQUE constraint on user_id and the primary key. -/
def insertProfile (db : DB) (p : Profile) : Except DBError DB :=
  if ¬ profileChecksOk p.name p.address then .error .checkViolation
  else if db.profiles.any (fun q => decide (q.user_id = p.user_id)) then
    .error .uniqueViolation
  else if db.profiles.any (fun q => decide (q.id = p.id)) then
    .error .uniqueViolation
  else .ok { db with profiles := db.profiles ++ [p] }

/-- INSERT INTO public.stores, enforcing the CHECK constraints, the
foreign key owner_id REFERENCES profiles(id) and the primary key. -/
def insertStore (db : DB) (s : Store) : Except DBError DB :=
  if ¬ storeChecksOk s.name s.address then .error .checkViolation
  else if ¬ db.profiles.any (fun p => decide (p.id = s.owner_id)) then
    .error .fkViolation
  else if db.stores.any (fun t => decide (t.id = s.id)) then
    .error .uniqueViolation
  else .ok { db with stores := db.stores ++ [s] }

/-- INSERT INTO public.ratings, enforcing the CHECK constraint, both
foreign keys, the primary key, and UNIQUE(user_id, store_id). -/
def insertRating (db : DB) (r : Rating) : Except DBError DB :=
  if ¬ ratingCheckOk r.rating then .error .checkViolation
  else if ¬ db.profiles.any (fun p => decide (p.id = r.user_id)) then
    .error .fkViolation
  else if ¬ db.stores.any (fun s => decide (s.id = r.store_id)) then
    .error .fkViolation
  else if db.ratings.any (fun q => decide (q.id = r.id)) then
    .error .uniqueViolation
  else if db.ratings.any
      (fun q => decide (q.user_id = r.user_id) && decide (q.store_id = r.store_id)) then
    .error .uniqueViolation
  else .ok { db with ratings := db.ratings ++ [r] }

/-- UPDATE public.ratings SET rating = sc WHERE id = rid, enforcing the
CHECK constraint on the new value.  Updating the score leaves the
(user_id, store_id) pair unchanged, so the UNIQUE constraint cannot be
violated by this statement. -/
def updateRating (db : DB) (rid : UID) (sc : Int) : Except DBError DB :=
  if ¬ ratingCheckOk sc then .error .checkViolation
  else .ok { db with
    ratings := db.ratings.map (fun q => if q.id = rid then { q with rating := sc } else q) }

/-- DELETE FROM public.profiles WHERE id = pid, with the ON DELETE
CASCADE chains of the schema: stores.owner_id cascades from profiles,
ratings.user_id cascades from profiles, and ratings.store_id cascades
from stores, so a rating disappears when its rater is deleted or when
its store is deleted because the store belonged to the deleted profile. -/
def deleteProfile (db : DB) (pid : UID) : DB :=
  let removedStores := db.stores.filter (fun s => decide (s.owner_id = pid))
  { profiles := db.profiles.filter (fun p => !decide (p.id = pid))
    stores := db.stores.filter (fun s => !decide (s.owner_id = pid))
    ratings := db.ratings.filter (fun r =>
      !decide (r.user_id = pid) &&
        !removedStores.any (fun s => decide (s.id = r.store_id))) }

/-- The raw_user_meta_data JSON map, restricted to the keys the trigger
reads. A missing key yields NULL, modelled by none. -/
structure Metadata where
  name : Option String
  role : Option String
deriving DecidableEq, Repr

/-- Row of auth.users as seen by the trigger. -/
structure AuthUser where
  id : UID
  email : String
  raw_user_meta_data : Metadata
deriving DecidableEq, Repr

/-- Parsing a text literal as the user_role enum. -/
def parseUserRole : String → Option UserRole
  | "admin" => some .admin
  | "normal_user" => some .normal_user
  | "store_owner" => some .store_owner
  | _ => none

/-- SQL semantics of COALESCE((m ->> role)::public.user_role,
normal_user): a missing key yields NULL and COALESCE supplies the
default, but a present value that is not a valid enum label makes the
cast itself raise invalid_text_representation; COALESCE never sees it. -/
def roleFromMetadata : Option String → Except DBError UserRole
  | none => .ok .normal_user
  | some s =>
    match parseUserRole s with
    | some r => .ok r
    | none => .error .invalidEnumCast

/-- The placeholder used by the trigger when no name is in the metadata. -/
def defaultProfileName : String := "Default Name (Please Update)"

/-- The trigger function public.handle_new_user: one INSERT into
public.profiles with user_id := NEW.id, name := COALESCE(metadata name,
placeholder), email := NEW.email, role := COALESCE(cast of metadata
role, normal_user).  The generated profile id is passed as newId. -/
def handle_new_user (db : DB) (newId : UID) (u : AuthUser) : Except DBError DB :=
  match roleFromMetadata u.raw_user_meta_data.role with
  | .error e => .error e
  | .ok role =>
    insertProfile db
      { id := newId
        user_id := u.id
        name := u.raw_user_meta_data.name.getD defaultProfileName
        email := u.email
        address := none
        role := role }

/-- State of the authentication boundary plus the application tables. -/
structure AuthDB where
  users : List AuthUser
  db : DB
deriving DecidableEq, Repr

/-- Registration: insert the account into auth.users; the AFTER INSERT
trigger on_auth_user_created runs handle_new_user in the same
transaction, so a trigger failure aborts the whole registration and
neither the account nor the profile is persisted. -/
def registerAccount (s : AuthDB) (newProfileId : UID) (u : AuthUser) : Except DBError AuthDB :=
  if s.users.any (fun v => decide (v.id = u.id)) then .error .uniqueViolation
  else
    match handle_new_user s.db newProfileId u with
    | .error e => .error e
    | .ok db2 => .ok { users := s.users ++ [u], db := db2 }

/-- The ratings of a store: the rows of public.ratings whose store_id
matches. -/
def ratingsOf (rs : List Rating) (sid : UID) : List Rating :=
  rs.filter (fun r => decide (r.store_id = sid))

/-- One store joined with its matching ratings: LEFT JOIN ratings r ON
s.id = r.store_id produces one all-NULL rating row when the store has
no ratings, and one row per matching rating otherwise. -/
def leftJoinRow (rs : List Rating) (s : Store) : List (Store × Option Rating) :=
  if (ratingsOf rs s.id).isEmpty then [(s, none)]
  else (ratingsOf rs s.id).map (fun r => (s, some r))

/-- The join relation FROM stores s LEFT JOIN ratings r ON s.id = r.store_id. -/
def joinRows (stores : List Store) (rs : List Rating) : List (Store × Option Rating) :=
  stores.flatMap (leftJoinRow rs)

/-- Row shape of the public.store_ratings view: all store columns plus
average_rating and total_ratings.  AVG over integers yields numeric,
modelled as the rationals. -/
structure StoreRatingsRow where
  store : Store
  average_rating : ℚ
  total_ratings : Nat
deriving DecidableEq, Repr

/-- The non-NULL scores of the GROUP BY group keyed by store s: the
rating column of the join rows grouped under s, NULLs dropped (AVG
ignores NULL). -/
def groupScores (rows : List (Store × Option Rating)) (s : Store) : List Int :=
  (rows.filter (fun x => decide (x.1 = s))).filterMap (fun x => x.2.map Rating.rating)

/-- The aggregates of one GROUP BY group keyed by store s:
COALESCE(AVG(r.rating), 0) averages the non-NULL scores of the group and
defaults to 0 when there are none; COUNT(r.id) counts non-NULL rating
identifiers. -/
def aggRow (rows : List (Store × Option Rating)) (s : Store) : StoreRatingsRow :=
  { store := s
    average_rating :=
      if (groupScores rows s).isEmpty then 0
      else ((groupScores rows s).map (fun z : Int => (z : ℚ))).sum /
        ((groupScores rows s).length : ℚ)
    total_ratings :=
      ((rows.filter (fun x => decide (x.1 = s))).filterMap
        (fun x => x.2.map Rating.id)).length }

/-- The view public.store_ratings: left-join stores to ratings, group by
the store columns (one group per distinct store value occurring in the
join), and aggregate each group. -/
def store_ratings (db : DB) : List StoreRatingsRow :=
  let rows := joinRows db.stores db.ratings
  ((rows.map Prod.fst).dedup).map (aggRow rows)

/-- Spec-level definition, for comparison with the view: averageRating(S)
is the arithmetic mean of the scores of the ratings of S, or 0 when S
has no ratings. -/
def averageRating (db : DB) (sid : UID) : ℚ :=
  let rs := ratingsOf db.ratings sid
  if rs.isEmpty then 0
  else (rs.map (fun r => (r.rating : ℚ))).sum / (rs.length : ℚ)

/-- Spec-level definition: totalRatings(S) is the number of ratings of S. -/
def totalRatings (db : DB) (sid : UID) : Nat :=
  (ratingsOf db.ratings sid).length

/-- The rating rows the UserDashboard fetches for the signed-in profile:
from(ratings).select(*).eq(user_id, profile.id). -/
def fetchUserRatings (db : DB) (pid : UID) : List Rating :=
  db.ratings.filter (fun r => decide (r.user_id = pid))

/-- Outcome of handleSubmitRating, as surfaced by the UserDashboard:
which toast is shown and whether the dialog flow completed. -/
inductive SubmitOutcome
  | noOp
  | updated
  | updateFailed
  | inserted
  | insertFailed
deriving DecidableEq, Repr

/-- handleSubmitRating of UserDashboard.tsx: bail out when no score is
selected; if the fetched userRatings already contain a rating for the
selected store, issue an UPDATE of that row, otherwise issue an INSERT.
An error from either statement is surfaced as a destructive toast and
nothing else is attempted. -/
def handleSubmitRating (pid : UID) (userRatings : List Rating) (storeId : UID)
    (newRating : Int) (newId : UID) (db : DB) : DB × SubmitOutcome :=
  if newRating = 0 then (db, .noOp)
  else
    match userRatings.find? (fun r => decide (r.store_id = storeId)) with
    | some ex =>
      match updateRating db ex.id newRating with
      | .error _ => (db, .updateFailed)
      | .ok db2 => (db2, .updated)
    | none =>
      match insertRating db { id := newId, user_id := pid, store_id := storeId, rating := newRating } with
      | .error _ => (db, .insertFailed)
      | .ok db2 => (db2, .inserted)

/-- An authenticated SELECT on public.profiles under row-level
security.  The applicable policies are "Users can view their own
profile" (auth.uid() = user_id) and "Admins can view all profiles",
whose USING expression is EXISTS (SELECT 1 FROM public.profiles WHERE
user_id = auth.uid() AND role = admin).  That subquery is itself a
SELECT on profiles, so its rows are again filtered by the same two
policies: evaluating the policies of profiles requires the result of
this very query, at smaller depth.  The fuel argument bounds the
expansion depth; fuel 0 is the planner giving up with the recursion
error (42P17). -/
def profilesSelectRows : Nat → DB → UID → Except DBError (List Profile)
  | 0, _, _ => .error .policyRecursion
  | fuel + 1, db, uid =>
    match profilesSelectRows fuel db uid with
    | .error e => .error e
    | .ok sub =>
      .ok (db.profiles.filter (fun p =>
        decide (p.user_id = uid) ||
          sub.any (fun q => decide (q.user_id = uid) && decide (q.role = UserRole.admin))))

/-- Row shape received by StoreOwnerDashboard.fetchRatings: the rating
columns it selects plus the embedded profiles resource, which is NULL
when the rater profile is not visible to the caller. -/
structure RatingWithUser where
  id : UID
  rating : Int
  profiles : Option (String × String)
deriving DecidableEq, Repr

/-- fetchRatings of StoreOwnerDashboard, under row-level security:
first resolve the store owned by the signed-in profile via the
constant-true stores SELECT policy (returning nothing when there is
none), then select the ratings of that store — publicly readable —
together with the embedded rater profile restricted to name and email.
The embedded resource is an authenticated SELECT on profiles, so the
request evaluates the profiles policies; when that evaluation fails, the
whole request fails and no rows are returned. -/
def fetchRatingsAuth (fuel : Nat) (db : DB) (callerUid : UID) (ownerId : UID) :
    Except DBError (List RatingWithUser) :=
  match db.stores.find? (fun s => decide (s.owner_id = ownerId)) with
  | none => .ok []
  | some st =>
    match profilesSelectRows fuel db callerUid with
    | .error e => .error e
    | .ok vis =>
      .ok ((ratingsOf db.ratings st.id).map (fun r =>
        { id := r.id
          rating := r.rating
          profiles :=
            (vis.find? (fun p => decide (p.id = r.user_id))).map
              (fun p => (p.name, p.email)) }))

/-- An authenticated INSERT into public.ratings under row-level
security.  The policy "Users can insert their own ratings" has WITH
CHECK (auth.uid() = (SELECT user_id FROM public.profiles WHERE id =
ratings.user_id)); the scalar subquery is an authenticated SELECT on
profiles, so its evaluation goes through the profiles policies.  When
the policy check passes, the storage constraints of insertRating apply. -/
def insertRatingAuth (fuel : Nat) (db : DB) (callerUid : UID) (r : Rating) :
    Except DBError DB :=
  match profilesSelectRows fuel db callerUid with
  | .error e => .error e
  | .ok vis =>
    if (vis.find? (fun p => decide (p.id = r.user_id))).map Profile.user_id =
        some callerUid then insertRating db r
    else .error .rlsDenied

/-- An authenticated UPDATE of a public.ratings row under row-level
security.  The policy "Users can update their own ratings" has USING
(auth.uid() = (SELECT user_id FROM public.profiles WHERE id =
ratings.user_id)), again an authenticated SELECT on profiles.  A row the
USING clause does not admit is simply not updated (zero rows affected). -/
def updateRatingAuth (fuel : Nat) (db : DB) (callerUid : UID) (rid : UID) (sc : Int) :
    Except DBError DB :=
  match profilesSelectRows fuel db callerUid with
  | .error e => .error e
  | .ok vis =>
    match db.ratings.find? (fun q => decide (q.id = rid)) with
    | none => .ok db
    | some q =>
      if (vis.find? (fun p => decide (p.id = q.user_id))).map Profile.user_id =
          some callerUid then updateRating db rid sc
      else .ok db

/-- handleSubmitRating of UserDashboard.tsx as actually executed: the
same client logic as handleSubmitRating, but the INSERT and UPDATE are
authenticated requests and therefore pass through the ratings
row-level-security policies. -/
def handleSubmitRatingAuth (fuel : Nat) (callerUid pid : UID) (userRatings : List Rating)
    (storeId : UID) (newRating : Int) (newId : UID) (db : DB) : DB × SubmitOutcome :=
  if newRating = 0 then (db, .noOp)
  else
    match userRatings.find? (fun r => decide (r.store_id = storeId)) with
    | some ex =>
      match updateRatingAuth fuel db callerUid ex.id newRating with
      | .error _ => (db, .updateFailed)
      | .ok db2 => (db2, .updated)
    | none =>
      match insertRatingAuth fuel db callerUid
          { id := newId, user_id := pid, store_id := storeId, rating := newRating } with
      | .error _ => (db, .insertFailed)
      | .ok db2 => (db2, .inserted)

/-- Client-side zod storeSchema of AdminDashboard.tsx, restricted to its
length rules: name min 20 max 60, address min 1 max 400. -/
def storeSchemaLengthOk (name : String) (address : String) : Bool :=
  decide (20 ≤ name.length) && decide (name.length ≤ 60) &&
    decide (1 ≤ address.length) && decide (address.length ≤ 400)

/-- The tables of the schema, for the policy-expansion model. -/
inductive Table
  | profiles
  | stores
  | ratings
deriving DecidableEq, Repr

/-- One row-level-security policy of the migration: the table it guards
and the tables referenced by subqueries inside its USING or WITH CHECK
expression. -/
structure Policy where
  table : Table
  refs : List Table
deriving DecidableEq, Repr

/-- The thirteen CREATE POLICY statements of the migration, in order.
The two own-row profile policies and the two public SELECT policies
compare columns with auth.uid() or are constantly true and reference no
table; every other policy embeds an EXISTS or scalar subquery on
public.profiles. -/
def migrationPolicies : List Policy :=
  [ ⟨.profiles, []⟩
  , ⟨.profiles, []⟩
  , ⟨.profiles, [.profiles]⟩
  , ⟨.profiles, [.profiles]⟩
  , ⟨.profiles, [.profiles]⟩
  , ⟨.stores, []⟩
  , ⟨.stores, [.profiles]⟩
  , ⟨.stores, [.profiles]⟩
  , ⟨.stores, [.profiles]⟩
  , ⟨.ratings, []⟩
  , ⟨.ratings, [.profiles]⟩
  , ⟨.ratings, [.profiles]⟩
  , ⟨.ratings, [.profiles]⟩ ]

/-- The tables whose policies must be expanded while expanding the
policies of t: every table referenced from some policy guarding t. -/
def tableDeps (t : Table) : List Table :=
  ((migrationPolicies.filter (fun pl => decide (pl.table = t))).map Policy.refs).flatten.dedup

/-- Row-level security applies inside policy expressions that query
RLS-enabled tables, so expanding the policies of a table requires
expanding the policies of every table those policies reference.
expandTable n t states that this expansion completes within depth n;
the planner rejects a query (error 42P17, infinite recursion detected
in policy) exactly when no finite depth suffices. -/
def expandTable : Nat → Table → Bool
  | 0, _ => false
  | n + 1, t => (tableDeps t).all (fun u => expandTable n u)

/-- Invariant of the ratings table: at most one row per (rater, store)
pair. -/
def ratingsUniquePair (db : DB) : Prop :=
  db.ratings.Pairwise (fun a b => ¬ (a.user_id = b.user_id ∧ a.store_id = b.store_id))

instance (db : DB) : Decidable (ratingsUniquePair db) := by
  unfold ratingsUniquePair
  infer_instance

/-- Referential integrity of the three tables: every store owner is an
existing profile, every rating references an existing rater profile and
an existing store. -/
def refIntegrity (db : DB) : Prop :=
  (∀ s ∈ db.stores, ∃ p ∈ db.profiles, p.id = s.owner_id) ∧
    (∀ r ∈ db.ratings,
      (∃ p ∈ db.profiles, p.id = r.user_id) ∧ ∃ s ∈ db.stores, s.id = r.store_id)

instance (db : DB) : Decidable (refIntegrity db) := by
  unfold refIntegrity
  infer_instance

/-- Fixture: a store owner profile. -/
def ownerP : Profile := ⟨1, 100, "Owner", "o@x", none, .store_owner⟩

/-- Fixture: a normal-user rater profile. -/
def raterP : Profile := ⟨2, 200, "Rater", "r@x", none, .normal_user⟩

/-- Fixture: a second rater profile. -/
def raterP2 : Profile := ⟨3, 300, "Rater Two", "r2@x", none, .normal_user⟩

/-- Fixture: the store owned by ownerP. -/
def storeA : Store := ⟨10, 1, "S", "s@x", "addr"⟩

/-- Fixture: a second store owned by ownerP, with no ratings. -/
def storeB : Store := ⟨11, 1, "S2", "s2@x", "addr"⟩

/-- Fixture database: three profiles, two stores, three ratings of
storeA (scores 3, 5, 4) by the three profiles. -/
def dbBase : DB :=
  ⟨[ownerP, raterP, raterP2], [storeA, storeB],
    [⟨20, 2, 10, 3⟩, ⟨21, 3, 10, 5⟩, ⟨22, 1, 10, 4⟩]⟩

lemma insertRating_ok_iff (db : DB) (r : Rating) (db2 : DB) :
    insertRating db r = .ok db2 ↔
      ratingCheckOk r.rating = true ∧
        db.profiles.any (fun p => decide (p.id = r.user_id)) = true ∧
        db.stores.any (fun s => decide (s.id = r.store_id)) = true ∧
        db.ratings.any (fun q => decide (q.id = r.id)) = false ∧
        db.ratings.any
            (fun q => decide (q.user_id = r.user_id) && decide (q.store_id = r.store_id)) = false ∧
        db2 = { db with ratings := db.ratings ++ [r] } := by
  constructor
  · intro h
    unfold insertRating at h
    split_ifs at h with h1 h2 h3 h4 h5 <;> cases h
    exact ⟨by simpa using h1, by simpa using h2, by simpa using h3,
      by simpa using h4, by simpa using h5, rfl⟩
  · rintro ⟨h1, h2, h3, h4, h5, hdb⟩
    unfold insertRating
    rw [if_neg (by simp [h1]), if_neg (by simp [h2]), if_neg (by simp [h3]),
      if_neg (by simp [h4]), if_neg (by simp [h5]), hdb]

lemma insertRating_dup_not_ok (db : DB) (r : Rating)
    (hdup : ∃ q ∈ db.ratings, q.user_id = r.user_id ∧ q.store_id = r.store_id) :
    ∀ db2, insertRating db r ≠ .ok db2 := by
  intro db2 hok
  rw [insertRating_ok_iff] at hok
  obtain ⟨q, hq, hqu, hqs⟩ := hdup
  have := hok.2.2.2.2.1
  rw [List.any_eq_false] at this
  exact this q hq (by simp [hqu, hqs])

/-- C2: for every rater and store at most one rating row exists — the
invariant is preserved by every successful insert and by every
successful score update — and an insert for an already-rated pair never
creates or overwrites a row: it fails, with the unique-constraint
violation whenever the attempt passes the other constraints. -/
theorem rating_pair_unique (db : DB) (r : Rating) (hinv : ratingsUniquePair db) :
    (∀ db2, insertRating db r = .ok db2 → ratingsUniquePair db2) ∧
      (∀ rid sc db2, updateRating db rid sc = .ok db2 → ratingsUniquePair db2) ∧
      ((∃ q ∈ db.ratings, q.user_id = r.user_id ∧ q.store_id = r.store_id) →
        (∀ db2, insertRating db r ≠ .ok db2) ∧
          (ratingCheckOk r.rating = true →
            db.profiles.any (fun p => decide (p.id = r.user_id)) = true →
            db.stores.any (fun s => decide (s.id = r.store_id)) = true →
            db.ratings.any (fun q => decide (q.id = r.id)) = false →
            insertRating db r = .error .uniqueViolation)) := by
  refine ⟨?_, ?_, ?_⟩
  · intro db2 hok
    rw [insertRating_ok_iff] at hok
    obtain ⟨-, -, -, -, hnodup, hdb2⟩ := hok
    subst hdb2
    unfold ratingsUniquePair at hinv ⊢
    rw [List.pairwise_append]
    refine ⟨hinv, by simp, ?_⟩
    intro a ha b hb
    rw [List.any_eq_false] at hnodup
    have := hnodup a ha
    simp only [List.mem_singleton] at hb
    subst hb
    simpa using this
  · intro rid sc db2 hok
    unfold updateRating at hok
    split_ifs at hok
    simp only [Except.ok.injEq] at hok
    subst hok
    unfold ratingsUniquePair at hinv ⊢
    simp only [List.pairwise_map]
    refine hinv.imp ?_
    intro a b hab
    split_ifs <;> simpa using hab
  · intro hdup
    refine ⟨insertRating_dup_not_ok db r hdup, ?_⟩
    intro h1 h2 h3 h4
    unfold insertRating
    rw [if_neg (by simp [h1]), if_neg (by simp [h2]), if_neg (by simp [h3]),
      if_neg (by simp [h4]), if_pos]
    rw [List.any_eq_true]
    obtain ⟨q, hq, hqu, hqs⟩ := hdup
    exact ⟨q, hq, by simp [hqu, hqs]⟩

/-- C2 witness: the invariant statement applied to the fixture database
and a duplicate insert attempt for the already-rated pair (rater 2,
store 10). -/
theorem rating_pair_unique_witness :
    (∀ db2, insertRating dbBase ⟨30, 2, 10, 5⟩ = .ok db2 → ratingsUniquePair db2) ∧
      (∀ rid sc db2, updateRating dbBase rid sc = .ok db2 → ratingsUniquePair db2) ∧
      ((∃ q ∈ dbBase.ratings, q.user_id = 2 ∧ q.store_id = 10) →
        (∀ db2, insertRating dbBase ⟨30, 2, 10, 5⟩ ≠ .ok db2) ∧
          (ratingCheckOk (5 : Int) = true →
            dbBase.profiles.any (fun p => decide (p.id = 2)) = true →
            dbBase.stores.any (fun s => decide (s.id = 10)) = true →
            dbBase.ratings.any (fun q => decide (q.id = 30)) = false →
            insertRating dbBase ⟨30, 2, 10, 5⟩ = .error .uniqueViolation)) :=
  rating_pair_unique dbBase ⟨30, 2, 10, 5⟩ (by decide)

lemma profileChecksOk_iff (nm : String) (ad : Option String) :
    profileChecksOk nm ad = true ↔
      20 ≤ nm.length ∧ nm.length ≤ 60 ∧ ∀ a ∈ ad, a.length ≤ 400 := by
  unfold profileChecksOk
  cases ad <;> simp [and_assoc]

lemma storeChecksOk_iff (nm : String) (ad : String) :
    storeChecksOk nm ad = true ↔
      20 ≤ nm.length ∧ nm.length ≤ 60 ∧ ad.length ≤ 400 := by
  unfold storeChecksOk
  simp [and_assoc]

/-- C4 counterexample: the storage layer accepts a store row whose
address is the empty string (the schema has NOT NULL and an upper length
bound on stores.address but no lower bound), so a write with address
length below 1 is not rejected at the storage layer; only the
client-side zod schema carries the lower bound. -/
theorem store_empty_address_accepted :
    insertStore dbBase ⟨12, 1, "Twenty Characters OK", "e@x", ""⟩ =
      .ok ⟨dbBase.profiles, dbBase.stores ++ [⟨12, 1, "Twenty Characters OK", "e@x", ""⟩],
        dbBase.ratings⟩ ∧
      ("" : String).length = 0 := by
  constructor
  · rfl
  · rfl

/-- C4 amended: the storage layer enforces, for every persisted Profile
and Store row, a name length between 20 and 60 and an address length of
at most 400 (a Store address is required but may be empty there); the
additional lower bound of 1 on a Store address is enforced only by the
client-side zod schema, not by the storage layer. -/
theorem storage_length_checks (db : DB) (p : Profile) (s : Store) :
    (∀ db2, insertProfile db p = .ok db2 →
      20 ≤ p.name.length ∧ p.name.length ≤ 60 ∧ ∀ a ∈ p.address, a.length ≤ 400) ∧
      (∀ db2, insertStore db s = .ok db2 →
        20 ≤ s.name.length ∧ s.name.length ≤ 60 ∧ s.address.length ≤ 400) ∧
      (¬ (20 ≤ p.name.length ∧ p.name.length ≤ 60 ∧ ∀ a ∈ p.address, a.length ≤ 400) →
        insertProfile db p = .error .checkViolation) ∧
      (¬ (20 ≤ s.name.length ∧ s.name.length ≤ 60 ∧ s.address.length ≤ 400) →
        insertStore db s = .error .checkViolation) ∧
      (∀ nm ad, storeSchemaLengthOk nm ad = true → 1 ≤ ad.length) := by
  refine ⟨?_, ?_, ?_, ?_, ?_⟩
  · intro db2 hok
    unfold insertProfile at hok
    split_ifs at hok with h1 <;> cases hok
    rw [← profileChecksOk_iff]
    simpa using h1
  · intro db2 hok
    unfold insertStore at hok
    split_ifs at hok with h1 <;> cases hok
    rw [← storeChecksOk_iff]
    simpa using h1
  · intro hbad
    rw [← profileChecksOk_iff] at hbad
    unfold insertProfile
    rw [if_pos (by simpa using hbad)]
  · intro hbad
    rw [← storeChecksOk_iff] at hbad
    unfold insertStore
    rw [if_pos (by simpa using hbad)]
  · intro nm ad h
    unfold storeSchemaLengthOk at h
    simp only [Bool.and_eq_true, decide_eq_true_eq] at h
    exact h.1.2

/-- C4 witness: the amended statement applied to the fixture database, a
profile with a 5-character name, and a store with a 5-character name. -/
theorem storage_length_checks_witness :
    insertProfile dbBase ⟨4, 400, "Short", "x@y", none, .normal_user⟩ =
        .error .checkViolation ∧
      insertStore dbBase ⟨12, 1, "Short", "x@y", "addr"⟩ = .error .checkViolation :=
  ⟨(storage_length_checks dbBase ⟨4, 400, "Short", "x@y", none, .normal_user⟩
      ⟨12, 1, "Short", "x@y", "addr"⟩).2.2.1 (by decide),
   (storage_length_checks dbBase ⟨4, 400, "Short", "x@y", none, .normal_user⟩
      ⟨12, 1, "Short", "x@y", "addr"⟩).2.2.2.1 (by decide)⟩

/-- C5 counterexample: a registration whose metadata carries the role
string moderator, which does not parse against the enumerated role set;
the enum cast raises an error instead of COALESCE falling back to
normal_user, so no profile row with role normal_user is created. -/
theorem unparseable_role_errors :
    parseUserRole "moderator" = none ∧
      handle_new_user dbBase 4 ⟨400, "a@b", ⟨none, some "moderator"⟩⟩ =
        .error .invalidEnumCast := by
  constructor
  · rfl
  · rfl

/-- C5 amended: the provisioning hook creates exactly one Profile row
whose name is the placeholder default when no name is present in the
metadata and whose role is normal_user when the role metadata is absent;
when the role metadata is present but does not parse against the
enumerated role set, the enum cast fails and no Profile row is created. -/
theorem handle_new_user_defaults (db : DB) (newId : UID) (u : AuthUser)
    (hname : u.raw_user_meta_data.name = none)
    (hfr1 : db.profiles.any (fun q => decide (q.user_id = u.id)) = false)
    (hfr2 : db.profiles.any (fun q => decide (q.id = newId)) = false) :
    (u.raw_user_meta_data.role = none →
      handle_new_user db newId u =
        .ok ⟨db.profiles ++ [⟨newId, u.id, defaultProfileName, u.email, none, .normal_user⟩],
          db.stores, db.ratings⟩) ∧
      (∀ s, u.raw_user_meta_data.role = some s → parseUserRole s = none →
        handle_new_user db newId u = .error .invalidEnumCast) := by
  constructor
  · intro hrole
    unfold handle_new_user
    rw [hrole]
    simp only [roleFromMetadata]
    unfold insertProfile
    rw [hname]
    rw [if_neg (by simp [Option.getD]; decide), if_neg (by simp [hfr1]), if_neg (by simp [hfr2])]
    simp [Option.getD]
  · intro s hrole hparse
    unfold handle_new_user
    rw [hrole]
    simp only [roleFromMetadata, hparse]

/-- C5 witness: the amended statement applied to a registration with
empty metadata on the fixture database. -/
theorem handle_new_user_defaults_witness :
    handle_new_user dbBase 4 ⟨400, "a@b", ⟨none, none⟩⟩ =
      .ok ⟨dbBase.profiles ++ [⟨4, 400, defaultProfileName, "a@b", none, .normal_user⟩],
        dbBase.stores, dbBase.ratings⟩ :=
  (handle_new_user_defaults dbBase 4 ⟨400, "a@b", ⟨none, none⟩⟩ rfl
    (by decide) (by decide)).1 rfl

/-- C10: a registration whose metadata proposes a name shorter than 20
or longer than 60 characters makes the trigger insert violate the name
CHECK constraint, which aborts the whole registration transaction: the
result is the constraint error, so neither a Profile row nor an account
is persisted (there is no fallback to the placeholder name).  The role
metadata is assumed absent or parseable, otherwise the enum cast fails
first. -/
theorem register_bad_name_aborts (s : AuthDB) (newProfileId : UID) (u : AuthUser)
    (hfresh : s.users.any (fun v => decide (v.id = u.id)) = false)
    (hrole : ∃ rl, roleFromMetadata u.raw_user_meta_data.role = .ok rl)
    (hname : ∃ nm, u.raw_user_meta_data.name = some nm ∧
      (nm.length < 20 ∨ 60 < nm.length)) :
    registerAccount s newProfileId u = .error .checkViolation ∧
      ∀ s2, registerAccount s newProfileId u ≠ .ok s2 := by
  obtain ⟨rl, hrl⟩ := hrole
  obtain ⟨nm, hnm, hbad⟩ := hname
  have hcheck : profileChecksOk nm none = false := by
    unfold profileChecksOk
    rcases hbad with hlt | hgt
    · simp [Nat.not_le_of_lt hlt]
    · simp [Nat.not_le_of_lt hgt]
  have hinner : handle_new_user s.db newProfileId u = .error .checkViolation := by
    unfold handle_new_user
    rw [hrl]
    dsimp only
    unfold insertProfile
    rw [hnm]
    simp [hcheck]
  have hmain : registerAccount s newProfileId u = .error .checkViolation := by
    unfold registerAccount
    rw [if_neg (by simp [hfresh]), hinner]
  exact ⟨hmain, fun s2 h => by rw [hmain] at h; cases h⟩

/-- C10 witness: a registration proposing the 5-character name Short
aborts with the CHECK violation on the fixture state. -/
theorem register_bad_name_aborts_witness :
    registerAccount ⟨[], dbBase⟩ 4 ⟨400, "a@b", ⟨some "Short", none⟩⟩ =
        .error .checkViolation ∧
      ∀ s2, registerAccount ⟨[], dbBase⟩ 4 ⟨400, "a@b", ⟨some "Short", none⟩⟩ ≠ .ok s2 :=
  register_bad_name_aborts ⟨[], dbBase⟩ 4 ⟨400, "a@b", ⟨some "Short", none⟩⟩
    (by decide) ⟨.normal_user, rfl⟩ ⟨"Short", rfl, by decide⟩

/-- C9: deleting a profile removes every store it owns, every rating it
authored and every rating of a removed store, and it preserves
referential integrity, so no dangling references remain. -/
theorem delete_profile_cascades (db : DB) (pid : UID) :
    (∀ s ∈ (deleteProfile db pid).stores, s.owner_id ≠ pid) ∧
      (∀ r ∈ (deleteProfile db pid).ratings, r.user_id ≠ pid) ∧
      (∀ r ∈ (deleteProfile db pid).ratings,
        ∀ s ∈ db.stores, s.owner_id = pid → r.store_id ≠ s.id) ∧
      (∀ p ∈ (deleteProfile db pid).profiles, p.id ≠ pid) ∧
      (refIntegrity db → refIntegrity (deleteProfile db pid)) := by
  refine ⟨?_, ?_, ?_, ?_, ?_⟩
  · intro s hs
    unfold deleteProfile at hs
    simp only [List.mem_filter, Bool.not_eq_true', decide_eq_false_iff_not] at hs
    exact hs.2
  · intro r hr
    unfold deleteProfile at hr
    simp only [List.mem_filter, Bool.and_eq_true, Bool.not_eq_true',
      decide_eq_false_iff_not, List.any_eq_false, decide_eq_true_eq] at hr
    exact hr.2.1
  · intro r hr s hs howner heq
    unfold deleteProfile at hr
    simp only [List.mem_filter, Bool.and_eq_true, Bool.not_eq_true',
      decide_eq_false_iff_not, List.any_eq_false, decide_eq_true_eq] at hr
    exact hr.2.2 s ⟨hs, howner⟩ heq.symm
  · intro p hp
    unfold deleteProfile at hp
    simp only [List.mem_filter, Bool.not_eq_true', decide_eq_false_iff_not] at hp
    exact hp.2
  · rintro ⟨hst, hrt⟩
    constructor
    · intro s hs
      have hs2 := hs
      unfold deleteProfile at hs2
      simp only [List.mem_filter, Bool.not_eq_true', decide_eq_false_iff_not] at hs2
      obtain ⟨hsmem, hsowner⟩ := hs2
      obtain ⟨p, hp, hpid⟩ := hst s hsmem
      refine ⟨p, ?_, hpid⟩
      unfold deleteProfile
      simp only [List.mem_filter, Bool.not_eq_true', decide_eq_false_iff_not]
      exact ⟨hp, by rw [hpid]; exact hsowner⟩
    · intro r hr
      have hr2 := hr
      unfold deleteProfile at hr2
      simp only [List.mem_filter, Bool.and_eq_true, Bool.not_eq_true',
        decide_eq_false_iff_not, List.any_eq_false, decide_eq_true_eq] at hr2
      obtain ⟨hrmem, hruser, hrstores⟩ := hr2
      obtain ⟨⟨p, hp, hpid⟩, ⟨s, hs, hsid⟩⟩ := hrt r hrmem
      constructor
      · refine ⟨p, ?_, hpid⟩
        unfold deleteProfile
        simp only [List.mem_filter, Bool.not_eq_true', decide_eq_false_iff_not]
        exact ⟨hp, by rw [hpid]; exact hruser⟩
      · refine ⟨s, ?_, hsid⟩
        unfold deleteProfile
        simp only [List.mem_filter, Bool.not_eq_true', decide_eq_false_iff_not]
        refine ⟨hs, fun hso => ?_⟩
        exact hrstores s ⟨hs, hso⟩ hsid

/-- C9 witness: cascading deletion of profile 1 on the fixture database
preserves referential integrity. -/
theorem delete_profile_cascades_witness :
    refIntegrity (deleteProfile dbBase 1) :=
  (delete_profile_cascades dbBase 1).2.2.2.2 (by decide)

/-- C6 counterexample: the client state has no fetched rating for store
10, but the database already holds one for (rater 2, store 10) — the
concurrent-duplicate situation the claim is about.  The insert fails on
the uniqueness constraint and handleSubmitRating surfaces the failure
and leaves the database unchanged: the rating stays at score 3 and no
update is issued, so the failure is not translated into an update of the
existing row. -/
theorem insert_failure_not_translated :
    handleSubmitRating 2 [] 10 5 30 dbBase = (dbBase, .insertFailed) ∧
      (∃ q ∈ dbBase.ratings, q.user_id = 2 ∧ q.store_id = 10 ∧ q.rating = 3) := by
  constructor
  · rfl
  · exact ⟨⟨20, 2, 10, 3⟩, by decide, rfl, rfl, rfl⟩

/-- C6 amended: handleSubmitRating chooses between update and insert by
a client-side pre-check of its previously fetched ratings; when the
insert path is taken while the database already holds a rating for the
pair, the insert fails on the uniqueness constraint and the caller
surfaces the failure as an error toast, leaving the database unchanged —
it neither translates the failure into an update nor retries the
insert. -/
theorem submit_insert_failure_surfaced (pid storeId newId : UID) (sc : Int)
    (userRatings : List Rating) (db : DB)
    (hnz : sc ≠ 0)
    (hfind : userRatings.find? (fun r => decide (r.store_id = storeId)) = none)
    (hdup : ∃ q ∈ db.ratings, q.user_id = pid ∧ q.store_id = storeId) :
    handleSubmitRating pid userRatings storeId sc newId db = (db, .insertFailed) := by
  unfold handleSubmitRating
  rw [if_neg hnz, hfind]
  have hnotok := insertRating_dup_not_ok db
    ⟨newId, pid, storeId, sc⟩ (by simpa using hdup)
  cases hins : insertRating db ⟨newId, pid, storeId, sc⟩ with
  | error e => rfl
  | ok db2 => exact absurd hins (hnotok db2)

/-- C6 amended witness: the statement applied to the concurrent
duplicate on the fixture database. -/
theorem submit_insert_failure_surfaced_witness :
    handleSubmitRating 2 [] 10 4 30 dbBase = (dbBase, .insertFailed) :=
  submit_insert_failure_surfaced 2 10 30 4 [] dbBase (by decide) rfl
    ⟨⟨20, 2, 10, 3⟩, by decide, rfl, rfl⟩

/-- C3: the admin policies on profiles embed subqueries on profiles
itself, so they are not a direct non-recursive fetch: the table is among
its own policy dependencies and row-level-security policy expansion for
profiles completes at no finite depth — the claim that evaluation
terminates without re-invoking the policy engine on Profile is exactly
what the code violates (the planner reports infinite recursion detected
in policy for relation profiles). -/
theorem profiles_policy_expansion_diverges :
    Table.profiles ∈ tableDeps Table.profiles ∧
      ∀ n, expandTable n Table.profiles = false := by
  constructor
  · decide
  · intro n
    induction n with
    | zero => rfl
    | succ m ih =>
      have hdeps : tableDeps Table.profiles = [Table.profiles] := by decide
      unfold expandTable
      rw [hdeps]
      simpa using ih

lemma profilesSelectRows_policy_recursion (fuel : Nat) (db : DB) (uid : UID) :
    profilesSelectRows fuel db uid = .error .policyRecursion := by
  induction fuel with
  | zero => rfl
  | succ n ih =>
    unfold profilesSelectRows
    rw [ih]

/-- C7: fetchRatings cannot return the rating rows with their rater
display fields: the embedded profiles resource is an authenticated
SELECT on profiles, whose policy evaluation diverges because the admin
policy queries profiles itself, so at every expansion depth the whole
request fails with the policy recursion error and no rows are returned
to any caller — in particular not to the store's owner, for whom the
component only shows its failure toast. -/
theorem fetch_ratings_policy_recursion (fuel : Nat) (db : DB) (callerUid ownerId : UID)
    (st : Store)
    (hst : db.stores.find? (fun s => decide (s.owner_id = ownerId)) = some st) :
    fetchRatingsAuth fuel db callerUid ownerId = .error .policyRecursion ∧
      ∀ rows, fetchRatingsAuth fuel db callerUid ownerId ≠ .ok rows := by
  have hmain : fetchRatingsAuth fuel db callerUid ownerId = .error .policyRecursion := by
    unfold fetchRatingsAuth
    rw [hst]
    dsimp only
    rw [profilesSelectRows_policy_recursion fuel db callerUid]
  exact ⟨hmain, fun rows h => by rw [hmain] at h; cases h⟩

/-- C7 witness: the failing request of the owner of store 10 (auth uid
100) at expansion depth 5 on the fixture database. -/
theorem fetch_ratings_policy_recursion_witness :
    fetchRatingsAuth 5 dbBase 100 1 = .error .policyRecursion ∧
      ∀ rows, fetchRatingsAuth 5 dbBase 100 1 ≠ .ok rows :=
  fetch_ratings_policy_recursion 5 dbBase 100 1 storeA rfl

lemma mem_leftJoinRow_fst {rs : List Rating} {s : Store} {x : Store × Option Rating}
    (hx : x ∈ leftJoinRow rs s) : x.1 = s := by
  unfold leftJoinRow at hx
  split_ifs at hx
  · simp only [List.mem_singleton] at hx
    rw [hx]
  · simp only [List.mem_map] at hx
    obtain ⟨r, -, hr⟩ := hx
    rw [← hr]

lemma leftJoinRow_ne_nil (rs : List Rating) (s : Store) : leftJoinRow rs s ≠ [] := by
  unfold leftJoinRow
  split_ifs with h
  · simp
  · simp only [ne_eq, List.map_eq_nil_iff]
    intro hnil
    rw [hnil] at h
    exact h rfl

lemma fst_mem_of_mem_joinRows {stores : List Store} {rs : List Rating}
    {x : Store × Option Rating} (hx : x ∈ joinRows stores rs) : x.1 ∈ stores := by
  unfold joinRows at hx
  rw [List.mem_flatMap] at hx
  obtain ⟨s, hs, hmem⟩ := hx
  rw [mem_leftJoinRow_fst hmem]
  exact hs

lemma filter_joinRows (stores : List Store) (rs : List Rating) (s : Store)
    (hnd : stores.Nodup) (hs : s ∈ stores) :
    (joinRows stores rs).filter (fun x => decide (x.1 = s)) = leftJoinRow rs s := by
  induction stores with
  | nil => cases hs
  | cons a l ih =>
    rw [List.nodup_cons] at hnd
    have hjoin : joinRows (a :: l) rs = leftJoinRow rs a ++ joinRows l rs := by
      unfold joinRows
      rw [List.flatMap_cons]
    rw [hjoin, List.filter_append]
    rcases List.mem_cons.mp hs with heq | hmem
    · subst heq
      have h1 : (leftJoinRow rs s).filter (fun x => decide (x.1 = s)) = leftJoinRow rs s :=
        List.filter_eq_self.mpr (fun x hx => by simp [mem_leftJoinRow_fst hx])
      have h2 : (joinRows l rs).filter (fun x => decide (x.1 = s)) = [] := by
        rw [List.filter_eq_nil_iff]
        intro x hx
        have hxl := fst_mem_of_mem_joinRows hx
        simp only [decide_eq_true_eq]
        intro hxs
        rw [hxs] at hxl
        exact hnd.1 hxl
      rw [h1, h2, List.append_nil]
    · have hne : a ≠ s := fun h => hnd.1 (h ▸ hmem)
      have h1 : (leftJoinRow rs a).filter (fun x => decide (x.1 = s)) = [] := by
        rw [List.filter_eq_nil_iff]
        intro x hx
        rw [mem_leftJoinRow_fst hx]
        simp [hne]
      rw [h1, List.nil_append, ih hnd.2 hmem]

lemma filterMap_pair_rating (l : List Rating) (s : Store) :
    (l.map (fun r => (s, some r))).filterMap (fun x => x.2.map Rating.rating) =
      l.map Rating.rating := by
  induction l with
  | nil => rfl
  | cons a t ih => simp [ih]

lemma filterMap_pair_id (l : List Rating) (s : Store) :
    (l.map (fun r => (s, some r))).filterMap (fun x => x.2.map Rating.id) =
      l.map Rating.id := by
  induction l with
  | nil => rfl
  | cons a t ih => simp [ih]

lemma aggRow_of_filter (rs : List Rating) (rows : List (Store × Option Rating)) (s : Store)
    (h : rows.filter (fun x => decide (x.1 = s)) = leftJoinRow rs s) :
    aggRow rows s =
      { store := s
        average_rating :=
          if (ratingsOf rs s.id).isEmpty then 0
          else ((ratingsOf rs s.id).map (fun r => (r.rating : ℚ))).sum /
            ((ratingsOf rs s.id).length : ℚ)
        total_ratings := (ratingsOf rs s.id).length } := by
  unfold aggRow groupScores
  rw [h]
  unfold leftJoinRow
  by_cases hE : (ratingsOf rs s.id).isEmpty
  · rw [if_pos hE]
    rw [List.isEmpty_iff] at hE
    rw [hE]
    simp
  · rw [if_neg hE]
    rw [filterMap_pair_rating, filterMap_pair_id]
    have hiE : (List.map Rating.rating (ratingsOf rs s.id)).isEmpty =
        (ratingsOf rs s.id).isEmpty := by
      cases ratingsOf rs s.id <;> rfl
    rw [hiE, if_neg hE, if_neg hE, List.map_map]
    simp [List.length_map, Function.comp_def]

/-- C1: on a database whose stores have pairwise distinct identifiers
(the primary key), the store_ratings view contains a row for every store
S, and every view row for S carries average_rating equal to the
arithmetic mean of the scores of the ratings of S (0 when S has none)
and total_ratings equal to their count, as computed by the left join and
grouping. -/
theorem store_ratings_matches_spec (db : DB) (s : Store)
    (hnd : (db.stores.map Store.id).Nodup) (hs : s ∈ db.stores) :
    (∃ row ∈ store_ratings db, row.store = s) ∧
      (∀ row ∈ store_ratings db, row.store = s →
        row.average_rating = averageRating db s.id ∧
          row.total_ratings = totalRatings db s.id) := by
  have hndS : db.stores.Nodup := hnd.of_map
  have hsmem : s ∈ (joinRows db.stores db.ratings).map Prod.fst := by
    obtain ⟨x, hx⟩ := List.exists_mem_of_ne_nil _ (leftJoinRow_ne_nil db.ratings s)
    refine List.mem_map.mpr ⟨x, ?_, mem_leftJoinRow_fst hx⟩
    unfold joinRows
    exact List.mem_flatMap.mpr ⟨s, hs, hx⟩
  have hagg : aggRow (joinRows db.stores db.ratings) s =
      { store := s
        average_rating :=
          if (ratingsOf db.ratings s.id).isEmpty then 0
          else ((ratingsOf db.ratings s.id).map (fun r => (r.rating : ℚ))).sum /
            ((ratingsOf db.ratings s.id).length : ℚ)
        total_ratings := (ratingsOf db.ratings s.id).length } :=
    aggRow_of_filter db.ratings _ s (filter_joinRows db.stores db.ratings s hndS hs)
  constructor
  · refine ⟨aggRow (joinRows db.stores db.ratings) s, ?_, ?_⟩
    · unfold store_ratings
      exact List.mem_map_of_mem _ (List.mem_dedup.mpr hsmem)
    · rw [hagg]
  · intro row hrow hrows
    unfold store_ratings at hrow
    rw [List.mem_map] at hrow
    obtain ⟨k, -, hk⟩ := hrow
    have hks : k = s := by
      have : row.store = k := by
        rw [← hk]
        unfold aggRow
        rfl
      rw [← hrows, this]
    subst hks
    rw [← hk, hagg]
    unfold averageRating totalRatings
    exact ⟨rfl, rfl⟩

/-- C1 witness: the view statement applied to store 10 of the fixture
database, whose ratings have scores 3, 5 and 4. -/
theorem store_ratings_matches_spec_witness :
    (∃ row ∈ store_ratings dbBase, row.store = storeA) ∧
      (∀ row ∈ store_ratings dbBase, row.store = storeA →
        row.average_rating = averageRating dbBase storeA.id ∧
          row.total_ratings = totalRatings dbBase storeA.id) :=
  store_ratings_matches_spec dbBase storeA (by decide) (by decide)

/-- C8: the upsert scenario cannot execute: the ratings INSERT and
UPDATE policies each evaluate a scalar subquery on profiles, whose
policy evaluation diverges, so at every expansion depth every
authenticated rating insert and every authenticated rating update fails
with the policy recursion error, and handleSubmitRating leaves the
database unchanged and surfaces a failure — no rating row with score 4
or 5 is ever created or updated, and the store's average never reflects
the submissions. -/
theorem upsert_flow_blocked (fuel : Nat) (db : DB)
    (callerUid pid storeId newId rid : UID) (sc : Int)
    (userRatings : List Rating) (r : Rating) (hnz : sc ≠ 0) :
    insertRatingAuth fuel db callerUid r = .error .policyRecursion ∧
      updateRatingAuth fuel db callerUid rid sc = .error .policyRecursion ∧
      (handleSubmitRatingAuth fuel callerUid pid userRatings storeId sc newId db =
          (db, .insertFailed) ∨
        handleSubmitRatingAuth fuel callerUid pid userRatings storeId sc newId db =
          (db, .updateFailed)) := by
  have hins : ∀ r2, insertRatingAuth fuel db callerUid r2 = .error .policyRecursion := by
    intro r2
    unfold insertRatingAuth
    rw [profilesSelectRows_policy_recursion fuel db callerUid]
  have hupd : ∀ rid2 sc2,
      updateRatingAuth fuel db callerUid rid2 sc2 = .error .policyRecursion := by
    intro rid2 sc2
    unfold updateRatingAuth
    rw [profilesSelectRows_policy_recursion fuel db callerUid]
  refine ⟨hins r, hupd rid sc, ?_⟩
  unfold handleSubmitRatingAuth
  rw [if_neg hnz]
  cases hfind : userRatings.find? (fun q => decide (q.store_id = storeId)) with
  | none =>
    left
    dsimp only
    rw [hins]
  | some ex =>
    right
    dsimp only
    rw [hupd ex.id sc]

/-- C8 witness: rater profile 2 (auth uid 200) submitting score 4 for
the unrated store 11 of the fixture database at expansion depth 5: the
insert fails on the policy recursion and the flow surfaces the failure. -/
theorem upsert_flow_blocked_witness :
    insertRatingAuth 5 dbBase 200 ⟨30, 2, 11, 4⟩ = .error .policyRecursion ∧
      updateRatingAuth 5 dbBase 200 30 4 = .error .policyRecursion ∧
      (handleSubmitRatingAuth 5 200 2 (fetchUserRatings dbBase 2) 11 4 30 dbBase =
          (dbBase, .insertFailed) ∨
        handleSubmitRatingAuth 5 200 2 (fetchUserRatings dbBase 2) 11 4 30 dbBase =
          (dbBase, .updateFailed)) :=
  upsert_flow_blocked 5 dbBase 200 2 11 30 30 4 (fetchUserRatings dbBase 2)
    ⟨30, 2, 11, 4⟩ (by decide)

end VenueVoter
